import Mathlib

/-!
Shallow embedding of three React components of the nhost dashboard:

* `HasuraConnectionInfo` (src/dashboard/src/features/hasura/overview/components/
  HasuraConnectionInfo/HasuraConnectionInfo.tsx, first document): the Hasura
  connection-info panel.
* `AzureADProviderSettings` (same file, second document): the Azure AD sign-in
  provider settings form.
* `OverviewMetrics` (src/dashboard/src/components/overview/OverviewMetrics/
  OverviewMetrics.tsx): read-only metric cards.
* `CustomDomains` (src/dashboard/src/pages/[workspaceSlug]/[appSlug]/settings/
  custom-domains/index.tsx): the route-level custom-domains settings page.

Each component body is embedded as a pure function from its hook-provided
inputs (current project, query result, form state, flags) to a rendered view.
JavaScript optional chaining becomes `Option.bind`, JavaScript falsiness of
strings (`undefined` or `""`) becomes an explicit predicate, and a component
that `throw`s is a function into `Except`.
-/

/-! ## Shared data model (current project, query results) -/

/-- The `config.hasura` subtree of a project, as read by
`currentProject?.config?.hasura.adminSecret`. -/
structure HasuraProjectConfig where
  adminSecret : String
deriving DecidableEq, Repr

/-- The `config` subtree of a project. -/
structure ProjectConfig where
  hasura : HasuraProjectConfig
deriving DecidableEq, Repr

/-- Whether a subscription plan is the free plan (`currentProject.plan.isFree`). -/
structure Plan where
  isFree : Bool
deriving DecidableEq, Repr

/-- The fields of the context-provided current project that the embedded
components read: `id`, `subdomain`, `region`, `config`, `plan`. The region is
kept abstract as a string; only its identity is ever passed along. -/
structure Project where
  id : String
  subdomain : Option String
  region : Option String
  config : Option ProjectConfig
  plan : Plan
deriving DecidableEq, Repr

/-- JavaScript falsiness of an optional string: `undefined` and `""` are falsy. -/
def strFalsy : Option String → Bool
  | none => true
  | some s => s = ""

/-- JavaScript `x || d` for optional strings: the default is taken when `x` is
`undefined` or the empty string. -/
def jsOrStr (x : Option String) (d : String) : String :=
  match x with
  | none => d
  | some s => if s = "" then d else s

/-- JavaScript `x || d` for optional booleans: the default is taken when `x` is
`undefined` or `false`. -/
def jsOrBool (x : Option Bool) (d : Bool) : Bool :=
  match x with
  | none => d
  | some b => if b then b else d

/-- The result visible on a GraphQL query hook: `data`, `loading`, `error`.
Errors are represented by their message string. -/
structure QueryResult (α : Type) where
  data : Option α
  loading : Bool
  error : Option String
deriving DecidableEq, Repr

/-! ## HasuraConnectionInfo -/

/-- A computed service URL, reified as the call that produced it:
either the constant `getHasuraConsoleServiceUrl()` from the environment, or an
invocation `generateAppServiceUrl(subdomain, region, service, ...)` recorded
with its arguments (the backend-slug arguments are external constants and are
not recorded). -/
inductive ServiceUrl where
  | consoleServiceUrl
  | generateAppServiceUrl (subdomain : String) (region : Option String) (service : String)
deriving DecidableEq, Repr

/-- The main (non-loading) view of `HasuraConnectionInfo`: the admin-secret
display text, the secret handed to the clipboard `copy` callback, the Hasura
URL on the Open Hasura button, and whether the Cancel button is present. -/
structure HasuraConnectionInfoView where
  secretDisplay : String
  copySecret : String
  hasuraUrl : ServiceUrl
  cancelButton : Bool
deriving DecidableEq, Repr

/-- What a render of `HasuraConnectionInfo` produces: the loading screen, or
the main view. -/
inductive HasuraConnectionInfoRender where
  | loadingScreen
  | main (view : HasuraConnectionInfoView)
deriving DecidableEq, Repr

/-- The body of `HasuraConnectionInfo`, as a function of the current project,
the `useIsPlatform` flag, whether `NEXT_PUBLIC_ENV === 'dev'`, and whether a
`close` callback was passed. Mirrors the source: the admin secret is read via
optional chaining, a loading screen is returned when the subdomain or the
secret is falsy, the Hasura URL is the console service URL in dev / non-platform
mode and a `generateAppServiceUrl` call otherwise, and the secret is displayed
as `Array(secret.length).fill(bullet).join('')`. -/
def HasuraConnectionInfo.render (currentProject : Option Project)
    (isPlatform : Bool) (envIsDev : Bool) (close : Bool) :
    HasuraConnectionInfoRender :=
  let projectAdminSecret : Option String :=
    (currentProject.bind (·.config)).map (fun c => c.hasura.adminSecret)
  if strFalsy (currentProject.bind (·.subdomain)) || strFalsy projectAdminSecret then
    .loadingScreen
  else
    let adminSecret := projectAdminSecret.getD ""
    let hasuraUrl : ServiceUrl :=
      if envIsDev || !isPlatform then
        .consoleServiceUrl
      else
        .generateAppServiceUrl ((currentProject.bind (·.subdomain)).getD "")
          (currentProject.bind (·.region)) "hasura"
    .main
      { secretDisplay := String.mk (List.replicate adminSecret.length '•')
        copySecret := adminSecret
        hasuraUrl := hasuraUrl
        cancelButton := close }

/-- Erase the clipboard-copy payload from a render, leaving everything the
user sees on screen. Used to state that the rendered output depends on the
admin secret only through its length. -/
def HasuraConnectionInfoRender.eraseCopySecret :
    HasuraConnectionInfoRender → HasuraConnectionInfoRender
  | .loadingScreen => .loadingScreen
  | .main v => .main { v with copySecret := "" }

/-- Replace a project's admin secret (keeping the rest of the project). -/
def Project.withAdminSecret (p : Project) (s : String) : Project :=
  { p with config := some { hasura := { adminSecret := s } } }

/-! ## CustomDomains page -/

/-- The children the `CustomDomains` page can render, in order. -/
inductive CustomDomainsChild where
  | upgradeToProBanner
  | customDomainsInfoBox
  | authDomain
  | hasuraDomain
  | databaseDomain
  | runServiceDomains
deriving DecidableEq, Repr

/-- The body of the `CustomDomains` page as the ordered list of children it
renders: on the free plan, only the `UpgradeToProBanner`; otherwise the info
box followed by the four domain feature panels. -/
def CustomDomains.render (currentProject : Project) : List CustomDomainsChild :=
  if currentProject.plan.isFree then
    [.upgradeToProBanner]
  else
    [.customDomainsInfoBox, .authDomain, .hasuraDomain, .databaseDomain,
     .runServiceDomains]

/-! ## AzureADProviderSettings: validation schema and form values -/

/-- The Azure AD form values (`AzureADProviderFormValues` in the source):
client id, client secret, tenant, enabled flag. -/
structure AzureADProviderFormValues where
  clientId : String
  clientSecret : String
  tenant : String
  enabled : Bool
deriving DecidableEq, Repr

/-- Yup `.required()` on a string field: rejects the empty string (and, in the
embedding, `undefined` is not representable since the form always materialises
every field). -/
def yupStringRequired (s : String) : Bool := s ≠ ""

/-- The Yup `validationSchema` of the Azure AD form: each of `clientId`,
`clientSecret` and `tenant` is a plain string that becomes `.required()` when
`enabled` is true; `enabled` itself is an unconstrained boolean. Returns
whether the given values pass validation. -/
def validationSchema.isValid (v : AzureADProviderFormValues) : Bool :=
  (if v.enabled then yupStringRequired v.clientId else true) &&
  (if v.enabled then yupStringRequired v.clientSecret else true) &&
  (if v.enabled then yupStringRequired v.tenant else true)

/-! ## AzureADProviderSettings: query data and form creation -/

/-- The `azuread` subtree of the sign-in-methods query data; every field may be
absent in the remote document. -/
structure AzureadOAuthConfig where
  clientId : Option String
  clientSecret : Option String
  tenant : Option String
  enabled : Option Bool
deriving DecidableEq, Repr

/-- The `oauth` subtree (`config.auth.method.oauth`). -/
structure OAuthMethodConfig where
  azuread : Option AzureadOAuthConfig
deriving DecidableEq, Repr

/-- The `method` subtree (`config.auth.method`). -/
structure AuthMethodConfig where
  oauth : Option OAuthMethodConfig
deriving DecidableEq, Repr

/-- The `auth` subtree (`config.auth`). -/
structure AuthConfig where
  method : Option AuthMethodConfig
deriving DecidableEq, Repr

/-- The `config` subtree of the sign-in-methods query data. -/
structure SignInMethodsConfig where
  auth : Option AuthConfig
deriving DecidableEq, Repr

/-- The data of `useGetSignInMethodsQuery`. -/
structure GetSignInMethodsData where
  config : Option SignInMethodsConfig
deriving DecidableEq, Repr

/-- The optional chain `data?.config?.auth?.method?.oauth?.azuread`. -/
def azureadOf (data : Option GetSignInMethodsData) : Option AzureadOAuthConfig :=
  ((((data.bind (·.config)).bind (·.auth)).bind (·.method)).bind (·.oauth)).bind
    (·.azuread)

/-- Apollo fetch policies that appear in the source. -/
inductive FetchPolicy where
  | cacheOnly
  | cacheFirst
  | networkOnly
deriving DecidableEq, Repr

/-- The fetch policy passed to `useGetSignInMethodsQuery` in
`AzureADProviderSettings`: `fetchPolicy: 'cache-only'`. -/
def signInMethodsQueryFetchPolicy : FetchPolicy := .cacheOnly

/-- The react-hook-form model of the Azure AD form: current values, the default
values the form was created with (or last reset to), and the submitting flag.
Dirtiness is derived, as in react-hook-form, by comparing values against the
default values. -/
structure FormModel where
  values : AzureADProviderFormValues
  defaultValues : AzureADProviderFormValues
  isSubmitting : Bool
deriving DecidableEq, Repr

/-- react-hook-form `formState.isDirty`: the current values differ from the
default values. -/
def FormModel.isDirty (f : FormModel) : Bool :=
  f.values != f.defaultValues

/-- react-hook-form `form.reset(v)`: the form's values and default values both
become `v`, so the form is no longer dirty or submitting. -/
def FormModel.reset (_f : FormModel) (v : AzureADProviderFormValues) : FormModel :=
  { values := v, defaultValues := v, isSubmitting := false }

/-- The `useForm` call of `AzureADProviderSettings`: the default values are
destructured from `data?.config?.auth?.method?.oauth?.azuread || {}` with
JavaScript `||` fallbacks (`clientId || ''`, `clientSecret || ''`,
`tenant || ''`, `enabled || false`), and the form starts at its defaults. -/
def initialForm (data : Option GetSignInMethodsData) : FormModel :=
  let a := (azureadOf data).getD
    { clientId := none, clientSecret := none, tenant := none, enabled := none }
  let defaults : AzureADProviderFormValues :=
    { clientId := jsOrStr a.clientId ""
      clientSecret := jsOrStr a.clientSecret ""
      tenant := jsOrStr a.tenant ""
      enabled := jsOrBool a.enabled false }
  { values := defaults, defaultValues := defaults, isSubmitting := false }

/-! ## AzureADProviderSettings: submit handler -/

/-- A toast notification emitted by `react-hot-toast`'s `toast.promise`:
the loading toast, then either the success toast or the error toast. -/
inductive Toast where
  | loading (msg : String)
  | success (msg : String)
  | failure (msg : String)
deriving DecidableEq, Repr

/-- Modelled from the spec: `getServerError` (src/dashboard/src/utils/settings/
getServerError) is not among the provided source files; per the spec, mutation
errors are surfaced via toast notifications with static user-facing copy, so it
is modelled as producing the static fallback message it is given. -/
def getServerError (fallback : String) : String := fallback

/-- The outcome of awaiting the `updateConfig` mutation promise. -/
inductive MutationOutcome where
  | success
  | failure (err : String)
deriving DecidableEq, Repr

/-- The `oauth` level of the update-config mutation variables:
`{ azuread: values }`. -/
structure UpdateOAuthInput where
  azuread : AzureADProviderFormValues
deriving DecidableEq, Repr

/-- The `method` level of the update-config mutation variables. -/
structure UpdateMethodInput where
  oauth : UpdateOAuthInput
deriving DecidableEq, Repr

/-- The `auth` level of the update-config mutation variables. -/
structure UpdateAuthInput where
  method : UpdateMethodInput
deriving DecidableEq, Repr

/-- The `config` object of the update-config mutation variables:
`{ auth: { method: { oauth: { azuread: values } } } }`. -/
structure UpdateConfigInput where
  auth : UpdateAuthInput
deriving DecidableEq, Repr

/-- The variables of the `updateConfig` mutation call: the app id and the
config patch. -/
structure UpdateConfigVariables where
  appId : String
  config : UpdateConfigInput
deriving DecidableEq, Repr

/-- What one run of `handleProviderUpdate` produces: the mutation call issued,
the toasts emitted (in order), the form model afterwards, and the error
propagated to the caller, if any. -/
structure SubmitResult where
  mutationCall : UpdateConfigVariables
  toasts : List Toast
  formAfter : FormModel
  thrown : Option String
deriving DecidableEq, Repr

/-- The `handleProviderUpdate` submit handler of `AzureADProviderSettings`:
it issues `updateConfig` with `{appId, config: {auth: {method: {oauth:
{azuread: values}}}}}`, wraps the promise in `toast.promise` (loading toast,
then a success toast with static copy on resolution or an error toast with
`getServerError(staticCopy)` on rejection), calls `form.reset(values)` after a
successful await, and swallows a rejection in an empty `catch`. -/
def handleProviderUpdate (form : FormModel) (currentProjectId : String)
    (values : AzureADProviderFormValues) (outcome : MutationOutcome) :
    SubmitResult :=
  let vars : UpdateConfigVariables :=
    { appId := currentProjectId
      config := { auth := { method := { oauth := { azuread := values } } } } }
  match outcome with
  | .success =>
      { mutationCall := vars
        toasts :=
          [.loading "Azure AD settings are being updated...",
           .success "Azure AD settings have been updated successfully."]
        formAfter := form.reset values
        thrown := none }
  | .failure _ =>
      { mutationCall := vars
        toasts :=
          [.loading "Azure AD settings are being updated...",
           .failure (getServerError
             "An error occurred while trying to update the project\x27s Azure AD settings.")]
        formAfter := form
        thrown := none }

/-! ## AzureADProviderSettings: render -/

/-- The settings-form view of `AzureADProviderSettings`: the submit button's
disabled and loading props, and whether the form body is hidden (the
`!authEnabled && 'hidden'` class). -/
structure AzureADSettingsFormView where
  submitDisabled : Bool
  submitLoading : Bool
  contentHidden : Bool
deriving DecidableEq, Repr

/-- What a render of `AzureADProviderSettings` produces when it does not
throw: the activity indicator shown while the query is loading, or the
settings form. -/
inductive AzureADSettingsRender where
  | activityIndicator
  | settingsForm (view : AzureADSettingsFormView)
deriving DecidableEq, Repr

/-- The submit-button `disabled` prop of the Azure AD settings form:
`!formState.isDirty || maintenanceActive`. -/
def azureADSubmitButtonDisabled (form : FormModel) (maintenanceActive : Bool) :
    Bool :=
  !form.isDirty || maintenanceActive

/-- The body of `AzureADProviderSettings` as a function of the sign-in-methods
query result, the maintenance flag, and the current form model: while the
query is loading it renders only an activity indicator; then a query error is
thrown (`Except.error`); otherwise the settings form is rendered with the
submit button disabled by `!formState.isDirty || maintenanceActive`, loading
while submitting, and the body hidden unless the watched `enabled` value is
true. -/
def AzureADProviderSettings.render (q : QueryResult GetSignInMethodsData)
    (maintenanceActive : Bool) (form : FormModel) :
    Except String AzureADSettingsRender :=
  if q.loading then
    .ok .activityIndicator
  else
    match q.error with
    | some e => .error e
    | none =>
        .ok (.settingsForm
          { submitDisabled := azureADSubmitButtonDisabled form maintenanceActive
            submitLoading := form.isSubmitting
            contentHidden := !form.values.enabled })

/-! ## OverviewMetrics -/

/-- One metric of the project-metrics query: an object with a numeric `value`.
JavaScript numbers are modelled as rationals; no claim in this development
depends on floating-point behaviour. -/
structure MetricValue where
  value : Rat
deriving DecidableEq, Repr

/-- The data of `useGetProjectMetricsQuery`: the six metrics, each possibly
absent. -/
structure GetProjectMetricsData where
  cpuSecondsUsage : Option MetricValue
  totalRequests : Option MetricValue
  functionInvocations : Option MetricValue
  postgresVolumeUsage : Option MetricValue
  postgresVolumeCapacity : Option MetricValue
  logsVolume : Option MetricValue
deriving DecidableEq, Repr

/-- JavaScript `x?.value || 0` on an optional metric. (For the values that
occur here, `|| 0` and defaulting an absent value coincide.) -/
def metricOrZero (m : Option MetricValue) : Rat :=
  match m with
  | none => 0
  | some v => if v.value = 0 then 0 else v.value

/-- JavaScript `Math.round`: round half up, i.e. the floor of `x + 1/2`. -/
def jsMathRound (x : Rat) : Int :=
  (x + 1 / 2).floor

/-- The unit names used by the external `prettysize` npm package. -/
def prettysizeUnits : List String := ["B", "kB", "MB", "GB", "TB", "PB", "EB"]

/-- Unit selection of `prettysize`: repeatedly divide by 1024 until the size
fits the current unit or the units run out. -/
def prettysizeAux (size : Rat) : List String → String
  | [] => toString size
  | [u] => toString size ++ " " ++ u
  | u :: us => if size < 1024 then toString size ++ " " ++ u
               else prettysizeAux (size / 1024) us

/-- Models the external `prettysize` npm dependency: formats a byte count with
a unit chosen by repeated division by 1024. The exact decimal formatting of
the number is abstracted (rationals are printed exactly); no claim depends on
the formatted text, only on which inputs reach this function. -/
def prettysize (size : Rat) : String :=
  prettysizeAux size prettysizeUnits

/-- One entry of the `cardElements` array: a label and a formatted value. -/
structure CardElement where
  label : String
  value : String
deriving DecidableEq, Repr

/-- The `cardElements` array of `OverviewMetrics`: six entries, one per
metric, with rounded counts and prettysized byte quantities; absent data
contributes `0` through `|| 0`. -/
def cardElements (data : Option GetProjectMetricsData) : List CardElement :=
  [{ label := "CPU Usage Seconds"
     value := toString (jsMathRound (metricOrZero (data.bind (·.cpuSecondsUsage)))) },
   { label := "Total Requests"
     value := toString (jsMathRound (metricOrZero (data.bind (·.totalRequests)))) },
   { label := "Function Invocations"
     value := toString (jsMathRound (metricOrZero (data.bind (·.functionInvocations)))) },
   { label := "Postgres Usage"
     value := prettysize (metricOrZero (data.bind (·.postgresVolumeUsage))) },
   { label := "Postgres Capacity"
     value := prettysize (metricOrZero (data.bind (·.postgresVolumeCapacity))) },
   { label := "Logs"
     value := prettysize (metricOrZero (data.bind (·.logsVolume))) }]

/-- The props passed to one `MetricsCard`: optional label and value, the
`className`, and the React `key`. -/
structure MetricsCardProps where
  label : Option String
  value : Option String
  className : Option String
  key : String
deriving DecidableEq, Repr

/-- The text nodes a `MetricsCard` renders: the label when truthy, then the
value when truthy (`{label && <Text>…}` / `{value && <Text>…}`). -/
def MetricsCard.renderedTexts (props : MetricsCardProps) : List String :=
  (match props.label with
   | some l => if l = "" then [] else [l]
   | none => []) ++
  (match props.value with
   | some v => if v = "" then [] else [v]
   | none => [])

/-- The non-throwing view of `OverviewMetrics`: the list of metric cards and
the footer text below them. -/
structure OverviewMetricsView where
  cards : List MetricsCardProps
  footer : String
deriving DecidableEq, Repr

/-- The body of `OverviewMetrics` as a function of the metrics query result:
with no data while loading it renders one pulsing placeholder card per entry
of `cardElements` (no label, no value); with no data and an error it throws
the error (`Except.error`); otherwise it renders the six labelled cards. -/
def OverviewMetrics.render (q : QueryResult GetProjectMetricsData) :
    Except String OverviewMetricsView :=
  let elements := cardElements q.data
  if q.data.isNone && q.loading then
    .ok
      { cards := elements.map (fun element =>
          { label := none, value := none
            className := some "h-[92px] animate-pulse", key := element.label })
        footer := "Your project usage since the beginning of the month." }
  else if q.data.isNone && q.error.isSome then
    .error (q.error.getD "")
  else
    .ok
      { cards := elements.map (fun element =>
          { label := some element.label, value := some element.value
            className := none, key := element.label })
        footer := "Your resource usage since the beginning of the month." }

/-! ## Concrete instances used by counterexamples and witnesses -/

/-- The all-empty Azure AD form values. -/
def emptyAzureADValues : AzureADProviderFormValues :=
  { clientId := "", clientSecret := "", tenant := "", enabled := false }

/-- A dirty form whose current values fail the validation schema
(`enabled` is on but `clientId` is empty). -/
def dirtyInvalidForm : FormModel :=
  { values := { clientId := "", clientSecret := "secret123", tenant := "tenant1",
                enabled := true }
    defaultValues := emptyAzureADValues
    isSubmitting := false }

/-- A dirty form whose current values pass the validation schema. -/
def dirtyValidForm : FormModel :=
  { values := { clientId := "client1", clientSecret := "secret123",
                tenant := "tenant1", enabled := true }
    defaultValues := emptyAzureADValues
    isSubmitting := false }

/-- A project on the free plan. -/
def freePlanProject : Project :=
  { id := "app1", subdomain := some "sub1", region := some "eu-central-1"
    config := some { hasura := { adminSecret := "secret123" } }
    plan := { isFree := true } }

/-! ## Claims -/

/-- Claim C1, counterexample: the claim says the submit button is enabled
exactly when the form is dirty and the values satisfy the validation schema.
With a dirty form whose values are invalid (`enabled` on, empty `clientId`)
and maintenance mode off, the button is enabled although the values are
invalid, so the biconditional fails. -/
theorem azureAD_submit_enabled_while_invalid :
    ¬ ((azureADSubmitButtonDisabled dirtyInvalidForm false = false) ↔
       (dirtyInvalidForm.isDirty = true ∧
        validationSchema.isValid dirtyInvalidForm.values = true)) := by
  decide

/-- Claim C1, amended: the submit button is enabled exactly when the form is
dirty and maintenance mode is not active; the values themselves do not
influence the button beyond their dirtiness (validity is not consulted, as
validation runs on submit). Stated for any two form models of equal
dirtiness. -/
theorem azureAD_submit_enabled_iff_dirty_and_no_maintenance
    (f g : FormModel) (m : Bool) (h : f.isDirty = g.isDirty) :
    azureADSubmitButtonDisabled f m = false ↔ (g.isDirty = true ∧ m = false) := by
  unfold azureADSubmitButtonDisabled
  rw [h]
  cases g.isDirty <;> cases m <;> simp

/-- Claim C1, witness: the amended theorem applied to two concrete dirty
forms with different values (one invalid, one valid). -/
theorem azureAD_submit_enabled_iff_witness :
    azureADSubmitButtonDisabled dirtyInvalidForm false = false ↔
      (dirtyValidForm.isDirty = true ∧ false = false) :=
  azureAD_submit_enabled_iff_dirty_and_no_maintenance dirtyInvalidForm
    dirtyValidForm false (by decide)

/-- Claim C3: on submission of the Azure AD form, a toast is displayed on both
outcomes of the update-config mutation: a success toast with static copy when
it resolves, and an error toast with static user-facing copy when it
rejects. -/
theorem handleProviderUpdate_toast_on_both_outcomes
    (form : FormModel) (pid : String) (values : AzureADProviderFormValues)
    (e : String) :
    (handleProviderUpdate form pid values .success).toasts =
      [Toast.loading "Azure AD settings are being updated...",
       Toast.success "Azure AD settings have been updated successfully."] ∧
    (handleProviderUpdate form pid values (.failure e)).toasts =
      [Toast.loading "Azure AD settings are being updated...",
       Toast.failure
         "An error occurred while trying to update the project\x27s Azure AD settings."] :=
  ⟨rfl, rfl⟩

/-- Claim C4: the CustomDomains page gates rendering on the subscription plan:
on the free plan it renders only the UpgradeToProBanner and none of the domain
feature panels; otherwise it renders all four feature panels and no upgrade
banner. -/
theorem customDomains_gates_on_plan (p : Project) :
    (p.plan.isFree = true →
      CustomDomains.render p = [CustomDomainsChild.upgradeToProBanner]) ∧
    (p.plan.isFree = false →
      CustomDomains.render p =
        [CustomDomainsChild.customDomainsInfoBox, CustomDomainsChild.authDomain,
         CustomDomainsChild.hasuraDomain, CustomDomainsChild.databaseDomain,
         CustomDomainsChild.runServiceDomains] ∧
      CustomDomainsChild.upgradeToProBanner ∉ CustomDomains.render p) := by
  refine ⟨fun h => ?_, fun h => ⟨?_, ?_⟩⟩ <;> simp [CustomDomains.render, h]

/-- Claim C4, witness: a free-plan project renders only the upgrade banner. -/
theorem customDomains_gates_on_plan_witness :
    CustomDomains.render freePlanProject = [CustomDomainsChild.upgradeToProBanner] :=
  (customDomains_gates_on_plan freePlanProject).1 rfl

/-- Claim C5: a value assignment passes the Azure AD validation schema if and
only if `enabled` is false, or `enabled` is true and `clientId`,
`clientSecret` and `tenant` are all non-empty. -/
theorem validationSchema_basic_required_fields (v : AzureADProviderFormValues) :
    validationSchema.isValid v = true ↔
      (v.enabled = false ∨
       (v.enabled = true ∧ v.clientId ≠ "" ∧ v.clientSecret ≠ "" ∧
        v.tenant ≠ "")) := by
  obtain ⟨cid, cs, t, en⟩ := v
  cases en <;> simp [validationSchema.isValid, yupStringRequired, and_assoc]

/-- Claim C5, witness: the schema accepts an enabled assignment with all
three fields filled in. -/
theorem validationSchema_basic_required_fields_witness :
    validationSchema.isValid
      { clientId := "client1", clientSecret := "secret123", tenant := "tenant1",
        enabled := true } = true :=
  (validationSchema_basic_required_fields _).mpr
    (Or.inr ⟨rfl, by decide, by decide, by decide⟩)

/-- Claim C10: in the Azure AD submit handler, the form is reset only after a
successful mutation: on failure `form.reset` is not called (the form model is
unchanged, so values and dirtiness are unchanged) and the error is swallowed,
while on success the form is reset to the submitted values. -/
theorem handleProviderUpdate_reset_only_on_success
    (form : FormModel) (pid : String) (values : AzureADProviderFormValues)
    (e : String) :
    (handleProviderUpdate form pid values (.failure e)).formAfter = form ∧
    (handleProviderUpdate form pid values (.failure e)).formAfter.isDirty =
      form.isDirty ∧
    (handleProviderUpdate form pid values (.failure e)).thrown = none ∧
    (handleProviderUpdate form pid values .success).formAfter =
      FormModel.reset form values :=
  ⟨rfl, rfl, rfl, rfl⟩

/-- JavaScript `s || ''` keeps the string (an empty string falls back to the
empty default, which is the same string). -/
theorem jsOrStr_some_empty (s : String) : jsOrStr (some s) "" = s := by
  by_cases h : s = "" <;> simp [jsOrStr, h]

/-- JavaScript `b || false` keeps the boolean. -/
theorem jsOrBool_some_false (b : Bool) : jsOrBool (some b) false = b := by
  cases b <;> simp [jsOrBool]

/-- Metrics data with every metric absent. -/
def metricsDataAllAbsent : GetProjectMetricsData :=
  { cpuSecondsUsage := none, totalRequests := none, functionInvocations := none
    postgresVolumeUsage := none, postgresVolumeCapacity := none
    logsVolume := none }

/-- A metrics query result that has both data and an error. -/
def metricsErrorWithData : QueryResult GetProjectMetricsData :=
  { data := some metricsDataAllAbsent, loading := false
    error := some "network error" }

/-- A settled metrics query result with an error and no data. -/
def metricsErrorNoData : QueryResult GetProjectMetricsData :=
  { data := none, loading := false, error := some "network error" }

/-- A metrics query result that is still loading with no data. -/
def metricsStillLoading : QueryResult GetProjectMetricsData :=
  { data := none, loading := true, error := none }

/-- A sign-in-methods query result that is still loading. -/
def signInMethodsStillLoading : QueryResult GetSignInMethodsData :=
  { data := none, loading := true, error := none }

/-- The form created from an empty sign-in-methods cache. -/
def pristineForm : FormModel := initialForm none

/-- Claim C2, counterexample: the claim says OverviewMetrics throws the query
error whenever the hook's error field is set; but with data present alongside
the error, the component renders the metric cards and does not throw. -/
theorem overviewMetrics_no_throw_with_data :
    ¬ (OverviewMetrics.render metricsErrorWithData =
        Except.error "network error") := by
  simp [OverviewMetrics.render, metricsErrorWithData]

/-- Claim C2, amended: OverviewMetrics throws the metrics query error exactly
when the error is set, no data is available and the query is not loading (with
data present it renders the cards despite the error; while loading without
data the placeholders take precedence); AzureADProviderSettings throws the
sign-in-methods query error exactly when the error is set and the query is not
loading (while loading it renders the activity indicator). -/
theorem queryError_thrown_conditions
    (qm : QueryResult GetProjectMetricsData)
    (qa : QueryResult GetSignInMethodsData) (m : Bool) (form : FormModel)
    (e : String) :
    (OverviewMetrics.render qm = Except.error e ↔
      (qm.data = none ∧ qm.loading = false ∧ qm.error = some e)) ∧
    (AzureADProviderSettings.render qa m form = Except.error e ↔
      (qa.loading = false ∧ qa.error = some e)) := by
  constructor
  · obtain ⟨d, l, err⟩ := qm
    cases d <;> cases l <;> cases err <;> simp [OverviewMetrics.render]
  · obtain ⟨d, l, err⟩ := qa
    cases l <;> cases err <;> simp [AzureADProviderSettings.render]

/-- Claim C2, witness: with the error set, no data and loading finished,
OverviewMetrics does throw the error. -/
theorem queryError_thrown_conditions_witness :
    OverviewMetrics.render metricsErrorNoData = Except.error "network error" :=
  (queryError_thrown_conditions metricsErrorNoData signInMethodsStillLoading
    false pristineForm "network error").1.mpr ⟨rfl, rfl, rfl⟩

/-- The fully populated `azuread` remote subtree used as a witness input. -/
def fullAzureadConfig : AzureadOAuthConfig :=
  { clientId := some "client1", clientSecret := some "secret123"
    tenant := some "tenant1", enabled := some true }

/-- Sign-in-methods data carrying `fullAzureadConfig`. -/
def signInDataFull : GetSignInMethodsData :=
  { config := some
      { auth := some
          { method := some
              { oauth := some
                  { azuread := some fullAzureadConfig } } } } }

/-- Claim C6: the Azure AD form mirrors the `azuread` subtree of the remote
configuration: the sign-in-methods query is read with the cache-only fetch
policy; the form starts at its default values, which are taken from the cached
`azuread` subtree with empty-string/false fallbacks for missing fields; on
submit, the values are persisted via the update-config mutation under
`config.auth.method.oauth.azuread`; and after a successful submission the form
is reset to the submitted values, discarding the dirty editing state. -/
theorem azureAD_form_mirrors_remote_azuread
    (data : Option GetSignInMethodsData) (cid cs t : String) (en : Bool)
    (form : FormModel) (pid : String) (values : AzureADProviderFormValues) :
    signInMethodsQueryFetchPolicy = FetchPolicy.cacheOnly ∧
    (initialForm data).values = (initialForm data).defaultValues ∧
    (azureadOf data = some { clientId := some cid, clientSecret := some cs,
                             tenant := some t, enabled := some en } →
      (initialForm data).defaultValues =
        { clientId := cid, clientSecret := cs, tenant := t, enabled := en }) ∧
    (azureadOf data = none →
      (initialForm data).defaultValues =
        { clientId := "", clientSecret := "", tenant := "", enabled := false }) ∧
    (handleProviderUpdate form pid values .success).mutationCall =
      { appId := pid,
        config := { auth := { method := { oauth := { azuread := values } } } } } ∧
    (handleProviderUpdate form pid values .success).formAfter.values = values ∧
    (handleProviderUpdate form pid values .success).formAfter.defaultValues =
      values ∧
    (handleProviderUpdate form pid values .success).formAfter.isDirty = false := by
  refine ⟨rfl, rfl, fun h => ?_, fun h => ?_, rfl, rfl, rfl, ?_⟩
  · simp [initialForm, h, jsOrStr_some_empty, jsOrBool_some_false]
  · simp [initialForm, h, jsOrStr, jsOrBool]
  · simp [handleProviderUpdate, FormModel.reset, FormModel.isDirty]

/-- Claim C6, witness: from a cache holding a fully populated `azuread`
subtree, the form's default values are exactly the remote values. -/
theorem azureAD_form_mirrors_remote_azuread_witness :
    (initialForm (some signInDataFull)).defaultValues =
      { clientId := "client1", clientSecret := "secret123"
        tenant := "tenant1", enabled := true } :=
  (azureAD_form_mirrors_remote_azuread (some signInDataFull) "client1"
    "secret123" "tenant1" true pristineForm "app1" emptyAzureADValues).2.2.1
    (by decide)

/-- Claim C7: in the loading state, placeholders are rendered: OverviewMetrics
with no data while loading renders exactly one pulsing placeholder card per
metric — six cards, each with no label or value and hence no text — and
AzureADProviderSettings while loading renders only the activity indicator
instead of the form. -/
theorem loading_renders_placeholders
    (qm : QueryResult GetProjectMetricsData)
    (qa : QueryResult GetSignInMethodsData) (m : Bool) (form : FormModel) :
    (qm.data = none → qm.loading = true →
      ∃ view, OverviewMetrics.render qm = Except.ok view ∧
        view.cards.length = 6 ∧
        ∀ c ∈ view.cards, c.label = none ∧ c.value = none ∧
          c.className = some "h-[92px] animate-pulse" ∧
          MetricsCard.renderedTexts c = []) ∧
    (qa.loading = true →
      AzureADProviderSettings.render qa m form =
        Except.ok AzureADSettingsRender.activityIndicator) := by
  constructor
  · obtain ⟨d, l, err⟩ := qm
    intro hd hl
    simp only at hd hl
    subst hd
    subst hl
    refine ⟨_, rfl, rfl, fun c hc => ?_⟩
    simp only [List.mem_map] at hc
    obtain ⟨elem, _, rfl⟩ := hc
    exact ⟨rfl, rfl, rfl, rfl⟩
  · obtain ⟨d, l, err⟩ := qa
    intro hl
    simp only at hl
    subst hl
    simp [AzureADProviderSettings.render]

/-- Claim C7, witness: a loading sign-in-methods query renders only the
activity indicator. -/
theorem loading_renders_placeholders_witness :
    AzureADProviderSettings.render signInMethodsStillLoading false pristineForm =
      Except.ok AzureADSettingsRender.activityIndicator :=
  (loading_renders_placeholders metricsStillLoading signInMethodsStillLoading
    false pristineForm).2 rfl

/-- A string of length zero is the empty string. -/
theorem string_eq_empty_of_length_eq_zero {s : String} (h : s.length = 0) :
    s = "" := by
  obtain ⟨data⟩ := s
  cases data with
  | nil => rfl
  | cons a l => simp [String.length] at h

/-- A paid-plan project whose admin secret is `"secret123"`. -/
def proPlanProject : Project :=
  { id := "app2", subdomain := some "mysub", region := some "eu-central-1"
    config := some { hasura := { adminSecret := "secret123" } }
    plan := { isFree := false } }

/-- The main view `HasuraConnectionInfo` renders for `proPlanProject` on the
platform outside dev mode, with a close callback. -/
def proPlanMainView : HasuraConnectionInfoView :=
  { secretDisplay := String.mk (List.replicate "secret123".length '•')
    copySecret := "secret123"
    hasuraUrl := .generateAppServiceUrl "mysub" (some "eu-central-1") "hasura"
    cancelButton := true }

/-- Claim C8: `HasuraConnectionInfo` never renders the admin secret itself:
the secret display is a string of bullet characters whose length equals the
secret's length, the secret value reaches only the clipboard-copy callback,
and — erasing that callback payload — the rendered output is identical for any
two secrets of the same length. -/
theorem hasura_adminSecret_reveals_only_length
    (p : Project) (c : ProjectConfig) (s1 s2 : String)
    (isPlat envIsDev close : Bool) (v : HasuraConnectionInfoView) :
    (p.config = some c →
      HasuraConnectionInfo.render (some p) isPlat envIsDev close =
        HasuraConnectionInfoRender.main v →
      v.secretDisplay =
        String.mk (List.replicate c.hasura.adminSecret.length '•') ∧
      v.secretDisplay.length = c.hasura.adminSecret.length ∧
      v.copySecret = c.hasura.adminSecret) ∧
    (s1.length = s2.length →
      (HasuraConnectionInfo.render (some (p.withAdminSecret s1)) isPlat envIsDev
          close).eraseCopySecret =
        (HasuraConnectionInfo.render (some (p.withAdminSecret s2)) isPlat envIsDev
          close).eraseCopySecret) := by
  obtain ⟨pid, psub, preg, pcfg, pplan⟩ := p
  constructor
  · intro hc hr
    dsimp only at hc
    subst hc
    rcases psub with _ | s
    · simp [HasuraConnectionInfo.render, strFalsy] at hr
    · by_cases hse : s = ""
      · simp [HasuraConnectionInfo.render, strFalsy, hse] at hr
      · by_cases hsc : c.hasura.adminSecret = ""
        · simp [HasuraConnectionInfo.render, strFalsy, hsc] at hr
        · simp [HasuraConnectionInfo.render, strFalsy, hse, hsc] at hr
          subst hr
          refine ⟨rfl, ?_, rfl⟩
          simp [String.length_mk, List.length_replicate]
  · intro hlen
    by_cases h1 : s1 = ""
    · have h2 : s2 = "" :=
        string_eq_empty_of_length_eq_zero
          (by rw [← hlen, h1]; exact String.length_empty)
      subst h1
      subst h2
      simp [HasuraConnectionInfo.render, Project.withAdminSecret, strFalsy]
    · have h2 : s2 ≠ "" := fun he =>
        h1 (string_eq_empty_of_length_eq_zero
          (by rw [hlen, he]; exact String.length_empty))
      rcases psub with _ | s
      · simp [HasuraConnectionInfo.render, Project.withAdminSecret, strFalsy]
      · by_cases hs : s = ""
        · simp [HasuraConnectionInfo.render, Project.withAdminSecret, strFalsy,
            hs]
        · simp [HasuraConnectionInfo.render, Project.withAdminSecret, strFalsy,
            hs, h1, h2, HasuraConnectionInfoRender.eraseCopySecret]
          rw [hlen]

/-- Claim C8, witness: for `proPlanProject` the rendered view displays nine
bullets, of the same length as the secret, and hands the secret to the copy
callback only. -/
theorem hasura_adminSecret_reveals_only_length_witness :
    proPlanMainView.secretDisplay =
      String.mk (List.replicate ("secret123".length) '•') ∧
    proPlanMainView.secretDisplay.length = "secret123".length ∧
    proPlanMainView.copySecret = "secret123" :=
  (hasura_adminSecret_reveals_only_length proPlanProject
    { hasura := { adminSecret := "secret123" } } "a" "b" true false true
    proPlanMainView).1 rfl (by decide)

/-- Claim C9: when the current project's subdomain or admin secret is missing
or empty, `HasuraConnectionInfo` returns the loading screen; consequently,
whenever the rendered view carries a `generateAppServiceUrl` invocation, that
invocation received the project's present, non-empty subdomain. -/
theorem hasura_loading_gate_and_url_subdomain
    (cp : Option Project) (isPlat envIsDev close : Bool)
    (v : HasuraConnectionInfoView) (sub : String) (reg : Option String)
    (svc : String) :
    ((strFalsy (cp.bind (·.subdomain)) = true ∨
      strFalsy ((cp.bind (·.config)).map (fun c => c.hasura.adminSecret)) =
        true) →
      HasuraConnectionInfo.render cp isPlat envIsDev close =
        HasuraConnectionInfoRender.loadingScreen) ∧
    (HasuraConnectionInfo.render cp isPlat envIsDev close =
        HasuraConnectionInfoRender.main v →
      v.hasuraUrl = ServiceUrl.generateAppServiceUrl sub reg svc →
      cp.bind (·.subdomain) = some sub ∧ sub ≠ "") := by
  constructor
  · intro h
    have hg : (strFalsy (cp.bind (·.subdomain)) ||
        strFalsy ((cp.bind (·.config)).map (fun c => c.hasura.adminSecret))) =
          true := by
      rcases h with h | h
      · rw [h]
        rfl
      · rw [h]
        exact Bool.or_true _
    simp only [HasuraConnectionInfo.render]
    rw [hg]
    rfl
  · intro hr hu
    rcases cp with _ | p
    · simp [HasuraConnectionInfo.render, strFalsy] at hr
    · obtain ⟨pid, psub, preg, pcfg, pplan⟩ := p
      rcases psub with _ | s
      · simp [HasuraConnectionInfo.render, strFalsy] at hr
      · rcases pcfg with _ | c
        · simp [HasuraConnectionInfo.render, strFalsy] at hr
        · by_cases hse : s = ""
          · simp [HasuraConnectionInfo.render, strFalsy, hse] at hr
          · by_cases hsc : c.hasura.adminSecret = ""
            · simp [HasuraConnectionInfo.render, strFalsy, hsc] at hr
            · simp [HasuraConnectionInfo.render, strFalsy, hse, hsc] at hr
              subst hr
              cases envIsDev <;> cases isPlat <;> simp at hu
              obtain ⟨hsub, hreg, hsvc⟩ := hu
              subst hsub
              exact ⟨rfl, hse⟩

/-- Claim C9, witness: with no current project, the component renders the
loading screen. -/
theorem hasura_loading_gate_and_url_subdomain_witness :
    HasuraConnectionInfo.render none true false false =
      HasuraConnectionInfoRender.loadingScreen :=
  (hasura_loading_gate_and_url_subdomain none true false false
    proPlanMainView "x" none "y").1 (Or.inl rfl)
